import Mathlib

/-!
Verification development for the fall-detection and emergency-escalation
subsystem of the therapy-robot repository (`src/features/safety.py`,
class `SafetyFeature`).

The embedding models the object state of `SafetyFeature` as a structure,
the per-tick body of `_monitor_loop` as a pure transition function on that
state, and the escalation operations (`_detect_fall`,
`handle_user_response`, `cancel_fall_detection`, `_timeout_emergency`,
`_activate_emergency`, `_cancel_emergency`, `_send_discord_alert`, the
periodic-alert loop body) as state transformers that also emit the
observable side effects (log events, timer start, LED flash start/stop,
HTTP post attempts) as an event list.  Sensor samples are rationals;
the source's float thresholds are exact decimal literals, written as
rationals.
-/

unseal Rat.add Rat.sub Rat.mul Rat.inv

/-- Observable side effects of the safety feature: `csv_logger.log_event`
calls (by event name), the 30 s confirmation `threading.Timer` start, the
emergency LED flash start/stop, the periodic-alert thread start, and an
HTTP post attempt to the Discord webhook. -/
inductive Event where
  | log (name : String)
  | startTimer
  | startFlash
  | stopFlash
  | startPeriodic
  | discordPost
deriving DecidableEq

/-- Mutable state of `SafetyFeature` relevant to fall detection and
escalation.  `led_flashing` models whether the emergency flash animation
is running (flash thread alive with `_led_flash_stop_event` cleared);
`webhook_configured` models `bool(self.discord_webhook_url)`. -/
structure SafetyFeature where
  fall_detected : Bool
  waiting_for_response : Bool
  emergency_mode : Bool
  detection_count : ℕ
  previous_z : Option ℚ
  z_history : List ℚ
  led_flashing : Bool
  webhook_configured : Bool
deriving DecidableEq

/-- `self.free_fall_threshold = 0.1`. -/
def freeFallThreshold : ℚ := 1/10

/-- `self.impact_threshold = 0.75`. -/
def impactThreshold : ℚ := 3/4

/-- `self.z_change_threshold = 0.45`. -/
def zChangeThreshold : ℚ := 9/20

/-- The literal `0.5` in `_monitor_loop`'s `if z_change > 0.5` branch
(the spec's `change_ceiling`). -/
def changeCeiling : ℚ := 1/2

/-- `self.detection_threshold = 3`. -/
def detectionThreshold : ℕ := 3

/-- `self.z_history_size = 5`. -/
def zHistorySize : ℕ := 5

/-- `self.z_jitter_low = 0.15`. -/
def zJitterLow : ℚ := 3/20

/-- `self.z_jitter_high = 0.65`. -/
def zJitterHigh : ℚ := 13/20

/-- The literal `0.1` margin in `_monitor_loop`'s `z_far_from_jitter`. -/
def farMargin : ℚ := 1/10

/-- Python `abs` on a rational, written executably. -/
def ratAbs (q : ℚ) : ℚ := if q < 0 then -q else q

/-- A reading counted by `z_outside_jitter`:
`z_val < self.z_jitter_low or z_val > self.z_jitter_high`. -/
def outsideP (v : ℚ) : Bool := decide (v < zJitterLow) || decide (zJitterHigh < v)

/-- `z_outside_jitter = sum(1 for z_val in self.z_history if ...)`. -/
def outsideJitterCount (h : List ℚ) : ℕ := h.countP outsideP

/-- `is_pattern_detected = z_outside_jitter >= 3`. -/
def isPatternDetected (h : List ℚ) : Bool := decide (3 ≤ outsideJitterCount h)

/-- `z_avg_recent = sum(self.z_history) / len(self.z_history) if self.z_history else z_abs`. -/
def zAvgRecent (h : List ℚ) (zabs : ℚ) : ℚ :=
  if h.isEmpty then zabs else h.sum / h.length

/-- `z_far_from_jitter = abs(avg - low) > 0.1 and abs(avg - high) > 0.1`. -/
def zFarFromJitter (h : List ℚ) (zabs : ℚ) : Bool :=
  decide (farMargin < ratAbs (zAvgRecent h zabs - zJitterLow)) &&
    decide (farMargin < ratAbs (zAvgRecent h zabs - zJitterHigh))

/-- The refined `is_sudden_change`: initially `z_change > z_change_threshold`,
then inside `if is_sudden_change:` kept when `z_change > 0.5`, or when the
pattern and mean-distance checks both hold, otherwise downgraded to false. -/
def isSuddenChange (h : List ℚ) (zabs zchange : ℚ) : Bool :=
  if zChangeThreshold < zchange then
    if changeCeiling < zchange then true
    else if isPatternDetected h && zFarFromJitter h zabs then true
    else false
  else false

/-- `is_free_fall = z_abs < self.free_fall_threshold`. -/
def isFreeFall (zabs : ℚ) : Bool := decide (zabs < freeFallThreshold)

/-- `is_impact = z_abs > self.impact_threshold`. -/
def isImpact (zabs : ℚ) : Bool := decide (impactThreshold < zabs)

/-- History update at the top of the tick: `self.z_history.append(z_abs)`
followed by `if len(self.z_history) > self.z_history_size: self.z_history.pop(0)`. -/
def tickWindow (hist : List ℚ) (zabs : ℚ) : List ℚ :=
  if zHistorySize < (hist ++ [zabs]).length then (hist ++ [zabs]).tail
  else hist ++ [zabs]

/-- Whether the tick is a detection hit:
`is_free_fall or is_impact or is_sudden_change`, computed with the
already-updated history window (the append happens before the
`previous_z` check in the source). -/
def tickHit (hist : List ℚ) (pz z : ℚ) : Bool :=
  isFreeFall (ratAbs z) || isImpact (ratAbs z) ||
    isSuddenChange (tickWindow hist (ratAbs z)) (ratAbs z) (ratAbs (z - pz))

/-- `SafetyFeature._detect_fall`: guarded by `fall_detected`; sets
`fall_detected`/`waiting_for_response`, resets `detection_count`, logs
`fall_detected` and starts the 30 s response `threading.Timer`. -/
def detectFall (s : SafetyFeature) : SafetyFeature × List Event :=
  if s.fall_detected then (s, [])
  else
    ({ s with fall_detected := true, waiting_for_response := true, detection_count := 0 },
     [Event.log "fall_detected", Event.startTimer])

/-- The `if self.detection_count >= self.detection_threshold: if not
self.fall_detected: self._detect_fall()` step of `_monitor_loop`, applied
to the state whose counter was already incremented. -/
def detectCheck (t : SafetyFeature) : SafetyFeature × List Event :=
  if detectionThreshold ≤ t.detection_count ∧ t.fall_detected = false then detectFall t
  else (t, [])

/-- One iteration of the body of `SafetyFeature._monitor_loop` on sample
`z` (the value returned by `self.accelerometer.read_z`).  On the very
first sample (`previous_z is None`) the state is only seeded
(`previous_z = z`, `detection_count = 0`, `z_history = [z_abs]`) and no
detection runs. -/
def monitorTick (s : SafetyFeature) (z : ℚ) : SafetyFeature × List Event :=
  match s.previous_z with
  | none => ({ s with previous_z := some z, detection_count := 0, z_history := [ratAbs z] }, [])
  | some pz =>
      if tickHit s.z_history pz z then
        detectCheck { s with previous_z := some z, z_history := tickWindow s.z_history (ratAbs z),
                             detection_count := s.detection_count + 1 }
      else
        ({ s with previous_z := some z, z_history := tickWindow s.z_history (ratAbs z),
                  detection_count := 0 }, [])

/-- Run the monitor loop over a finite sample sequence, collecting the
emitted events in order. -/
def runMonitor (s : SafetyFeature) (zs : List ℚ) : SafetyFeature × List Event :=
  match zs with
  | [] => (s, [])
  | z :: rest =>
      ((runMonitor (monitorTick s z).1 rest).1,
       (monitorTick s z).2 ++ (runMonitor (monitorTick s z).1 rest).2)

/-- The state right after `SafetyFeature.start()`: all flags cleared, no
previous sample, empty history; webhook configured. -/
def idleState : SafetyFeature :=
  { fall_detected := false, waiting_for_response := false, emergency_mode := false,
    detection_count := 0, previous_z := none, z_history := [],
    led_flashing := false, webhook_configured := true }

example :
    Event.log "fall_detected" ∈
      (runMonitor idleState [148/1000, 649/1000, 148/1000, 649/1000]).2 := by decide

example :
    (runMonitor idleState [2/10, 85/100, 86/100]).2 = [] := by decide

example :
    Event.log "fall_detected" ∈ (runMonitor idleState [2/10, 85/100, 86/100, 84/100]).2 := by
  decide

/-- Python list-membership prefix test: does `nd` occur at the head of the
haystack? -/
def listStartsWith : List Char → List Char → Bool
  | _, [] => true
  | [], _ :: _ => false
  | c :: cs, d :: ds => c == d && listStartsWith cs ds

/-- Python substring containment `nd in hay` on character lists. -/
def containsSeq (nd : List Char) : List Char → Bool
  | [] => nd.isEmpty
  | c :: cs => listStartsWith (c :: cs) nd || containsSeq nd cs

/-- `user_text.lower().strip()`: ASCII lowercasing followed by stripping
leading and trailing whitespace, as a character list. -/
def normalizeText (t : String) : List Char :=
  (((t.data.map Char.toLower).dropWhile Char.isWhitespace).reverse.dropWhile
      Char.isWhitespace).reverse

/-- The `okay_phrases` allow-list of `handle_user_response`, in source
order. -/
def okayPhrases : List String :=
  ["i'm okay", "im okay", "i am okay",
   "i'm fine", "im fine", "i am fine",
   "yes i'm okay", "yes im okay", "yes i am okay",
   "yes i'm fine", "yes im fine", "yes i am fine",
   "okay", "fine", "yes",
   "i'm safe", "im safe", "i am safe"]

/-- `SafetyFeature._cancel_emergency`: clears all escalation flags and the
detection counter, sets the LED-flash stop event and turns the LED off. -/
def cancelEmergency (s : SafetyFeature) : SafetyFeature × List Event :=
  ({ s with fall_detected := false, waiting_for_response := false,
            emergency_mode := false, detection_count := 0, led_flashing := false },
   [Event.stopFlash])

/-- `SafetyFeature.handle_user_response`: returns `False` immediately
unless `waiting_for_response`; otherwise checks the lowercased, stripped
text for any allow-list phrase by substring containment; on a match it
cancels the emergency, logs `fall_response_okay` and returns `True`. -/
def handleUserResponse (s : SafetyFeature) (t : String) : (SafetyFeature × List Event) × Bool :=
  if s.waiting_for_response = false then ((s, []), false)
  else if okayPhrases.any (fun p => containsSeq p.data (normalizeText t)) then
    (((cancelEmergency s).1, (cancelEmergency s).2 ++ [Event.log "fall_response_okay"]), true)
  else ((s, []), false)

/-- `SafetyFeature.cancel_fall_detection`: unconditionally cancels the
emergency and logs `fall_detection_cancelled`. -/
def cancelFallDetection (s : SafetyFeature) : SafetyFeature × List Event :=
  ((cancelEmergency s).1,
   (cancelEmergency s).2 ++ [Event.log "fall_detection_cancelled"])

/-- Outcome of the `requests.post` call inside `_send_discord_alert`: an
HTTP response with a status code, or a raised exception. -/
inductive SendOutcome where
  | http (status : ℕ)
  | exn
deriving DecidableEq

/-- The events emitted by `SafetyFeature._send_discord_alert` when the
post has outcome `o`: nothing when no webhook URL is configured;
otherwise one HTTP post attempt, then `discord_alert_sent` on status 204,
`discord_alert_failed` on any other status, and `discord_alert_error`
when the request raises. -/
def alertEvents (s : SafetyFeature) (o : SendOutcome) : List Event :=
  if s.webhook_configured = false then []
  else
    Event.discordPost ::
      (match o with
       | SendOutcome.http st =>
           if st = 204 then [Event.log "discord_alert_sent"]
           else [Event.log "discord_alert_failed"]
       | SendOutcome.exn => [Event.log "discord_alert_error"])

/-- `SafetyFeature._send_discord_alert` as a state transformer: it writes
none of the escalation fields, only emits events. -/
def sendDiscordAlert (s : SafetyFeature) (o : SendOutcome) : SafetyFeature × List Event :=
  (s, alertEvents s o)

/-- `SafetyFeature._activate_emergency`: guarded by `emergency_mode`;
sets `emergency_mode`, clears `waiting_for_response`, logs
`emergency_activated`, starts the rapid LED flash, sends one immediate
Discord alert when a webhook is configured, and starts the periodic-alert
thread. -/
def activateEmergency (s : SafetyFeature) (o : SendOutcome) : SafetyFeature × List Event :=
  if s.emergency_mode then (s, [])
  else
    (( { s with emergency_mode := true, waiting_for_response := false, led_flashing := true }),
     [Event.log "emergency_activated", Event.startFlash] ++
       (if s.webhook_configured then
          alertEvents { s with emergency_mode := true, waiting_for_response := false,
                               led_flashing := true } o
        else []) ++
       [Event.startPeriodic])

/-- `SafetyFeature._timeout_emergency` (the 30 s `threading.Timer`
callback): a no-op unless still `waiting_for_response`; otherwise
activates the emergency protocol. -/
def timeoutEmergency (s : SafetyFeature) (o : SendOutcome) : SafetyFeature × List Event :=
  if s.waiting_for_response = false then (s, [])
  else activateEmergency s o

/-- One 60 s iteration of the `send_periodic` loop in
`_start_periodic_alerts`: after the sleep it re-sends the Discord alert
iff still in `emergency_mode` (and the feature has not been stopped). -/
def periodicCheck (s : SafetyFeature) (o : SendOutcome) : List Event :=
  if s.emergency_mode then alertEvents s o else []

/-- Number of HTTP post attempts in an event list. -/
def postCount (evs : List Event) : ℕ :=
  evs.countP fun e => decide (e = Event.discordPost)

/-- A concrete state in `Emergency`: fall declared from idle, then the
confirmation deadline elapsed with a successful initial notification. -/
def emergencyState : SafetyFeature :=
  (timeoutEmergency (detectFall idleState).1 (SendOutcome.http 204)).1

example : emergencyState.emergency_mode = true := by decide
example : emergencyState.waiting_for_response = false := by decide
example : (handleUserResponse emergencyState "i'm okay").2 = false := by decide
example : containsSeq "okay".data (normalizeText "  No, I'm NOT okay ") = true := by decide
example : (handleUserResponse (detectFall idleState).1 "yes I'm fine").2 = true := by decide

/-- A state mid-session, seeded with a previous in-band sample 0.2. -/
def seededState : SafetyFeature :=
  { idleState with previous_z := some (2/10), z_history := [2/10] }

/-- A state with an episode already open (fall declared, awaiting
confirmation), previous sample 0.2. -/
def activeState : SafetyFeature :=
  { idleState with fall_detected := true, waiting_for_response := true,
                   previous_z := some (2/10), z_history := [2/10] }

/-- A seeded state with two consecutive hits already accumulated. -/
def twoHitState : SafetyFeature :=
  { idleState with previous_z := some (2/10), z_history := [2/10], detection_count := 2 }

/-- C5: any tick whose delta from the previous sample exceeds the hard
ceiling 0.5 makes `is_sudden_change` true, whatever the history window
(so regardless of the jitter-band count and mean-distance analysis,
including on the very first comparison after the seeding sample), and
the tick is a detection hit. -/
theorem large_delta_override (h : List ℚ) (pz z : ℚ)
    (hc : changeCeiling < ratAbs (z - pz)) :
    isSuddenChange (tickWindow h (ratAbs z)) (ratAbs z) (ratAbs (z - pz)) = true ∧
    tickHit h pz z = true := by
  have h45 : zChangeThreshold < ratAbs (z - pz) := by
    refine lt_trans ?_ hc
    norm_num [zChangeThreshold, changeCeiling]
  have hsc : isSuddenChange (tickWindow h (ratAbs z)) (ratAbs z) (ratAbs (z - pz)) = true := by
    rw [isSuddenChange, if_pos h45, if_pos hc]
  exact ⟨hsc, by simp [tickHit, hsc]⟩

/-- Witness for `large_delta_override` at the first post-seed comparison
0.2 → 0.9. -/
theorem large_delta_override_witness :
    isSuddenChange (tickWindow [2/10] (ratAbs (9/10))) (ratAbs (9/10))
        (ratAbs ((9:ℚ)/10 - 2/10)) = true ∧
    tickHit [2/10] (2/10) (9/10) = true :=
  large_delta_override [2/10] (2/10) (9/10) (by decide)

/-- C4: on a post-seed tick, a hit increments the consecutive-hit counter
and declares a fall exactly when the incremented counter reaches
`detection_threshold` and no fall is already flagged (the counter keeps
its incremented value when nothing is declared); a tick that is not a hit
declares nothing and resets the counter to 0. -/
theorem tick_hit_counter_spec (s : SafetyFeature) (pz z : ℚ)
    (hp : s.previous_z = some pz) :
    (tickHit s.z_history pz z = true →
      ((Event.log "fall_detected" ∈ (monitorTick s z).2) ↔
        (detectionThreshold ≤ s.detection_count + 1 ∧ s.fall_detected = false)) ∧
      (¬ (detectionThreshold ≤ s.detection_count + 1 ∧ s.fall_detected = false) →
        (monitorTick s z).1.detection_count = s.detection_count + 1)) ∧
    (tickHit s.z_history pz z = false →
      (monitorTick s z).2 = [] ∧ (monitorTick s z).1.detection_count = 0) := by
  constructor
  · intro hh
    constructor
    · by_cases hd : detectionThreshold ≤ s.detection_count + 1 ∧ s.fall_detected = false
      · simp [monitorTick, hp, hh, detectCheck, detectFall, hd, hd.1, hd.2]
      · simp [monitorTick, hp, hh, detectCheck, hd]
    · intro hd
      simp [monitorTick, hp, hh, detectCheck, hd]
  · intro hh
    simp [monitorTick, hp, hh]

/-- Witness for `tick_hit_counter_spec`: with two prior hits, an impact
tick 0.9 reaches the threshold and declares the fall. -/
theorem tick_hit_counter_spec_witness :
    Event.log "fall_detected" ∈ (monitorTick twoHitState (9/10)).2 := by
  have h := (tick_hit_counter_spec twoHitState (2/10) (9/10) rfl).1 (by decide)
  exact h.1.mpr (by decide)

/-- C8: while an episode is open (`fall_detected` true, so awaiting
confirmation or in emergency), a further classifier-true tick emits
nothing: no `fall_detected` log, no new confirmation timer, and the
escalation flags are untouched. -/
theorem no_second_episode_while_active (s : SafetyFeature) (pz z : ℚ)
    (hp : s.previous_z = some pz) (hf : s.fall_detected = true)
    (hh : tickHit s.z_history pz z = true) :
    (monitorTick s z).2 = [] ∧
    Event.startTimer ∉ (monitorTick s z).2 ∧
    (monitorTick s z).1.fall_detected = true ∧
    (monitorTick s z).1.waiting_for_response = s.waiting_for_response ∧
    (monitorTick s z).1.emergency_mode = s.emergency_mode := by
  simp [monitorTick, hp, hh, detectCheck, hf]

/-- Witness for `no_second_episode_while_active`: an impact tick while an
episode is open. -/
theorem no_second_episode_while_active_witness :
    (monitorTick activeState (9/10)).2 = [] :=
  (no_second_episode_while_active activeState (2/10) (9/10) rfl rfl (by decide)).1

/-- In an event list emitted by `_send_discord_alert` with a configured
webhook, there is exactly one HTTP post attempt. -/
theorem postCount_alertEvents_one (s : SafetyFeature) (o : SendOutcome)
    (hwh : s.webhook_configured = true) :
    postCount (alertEvents s o) = 1 := by
  cases o with
  | http st =>
      by_cases h204 : st = 204 <;>
        simp [alertEvents, postCount, hwh, h204, List.countP_cons]
  | exn => simp [alertEvents, postCount, hwh, List.countP_cons]

/-- C3: from awaiting-confirmation (still waiting, not yet in emergency),
the deadline callback activates the emergency exactly once — one
`emergency_activated` log and one immediate HTTP post — and both a later
timeout callback and a direct re-activation are identities, while a 60 s
periodic check in the resulting state posts exactly once. -/
theorem timeout_escalates_once (s : SafetyFeature) (o o2 o3 o4 : SendOutcome)
    (hw : s.waiting_for_response = true) (he : s.emergency_mode = false)
    (hwh : s.webhook_configured = true) :
    (timeoutEmergency s o).1.emergency_mode = true ∧
    postCount (timeoutEmergency s o).2 = 1 ∧
    Event.log "emergency_activated" ∈ (timeoutEmergency s o).2 ∧
    timeoutEmergency (timeoutEmergency s o).1 o2 = ((timeoutEmergency s o).1, []) ∧
    activateEmergency (timeoutEmergency s o).1 o3 = ((timeoutEmergency s o).1, []) ∧
    postCount (periodicCheck (timeoutEmergency s o).1 o4) = 1 := by
  have hact : timeoutEmergency s o =
      ({ s with emergency_mode := true, waiting_for_response := false, led_flashing := true },
       [Event.log "emergency_activated", Event.startFlash] ++
         alertEvents { s with emergency_mode := true, waiting_for_response := false,
                              led_flashing := true } o ++
         [Event.startPeriodic]) := by
    simp [timeoutEmergency, hw, activateEmergency, he, hwh]
  rw [hact]
  refine ⟨rfl, ?_, ?_, ?_, ?_, ?_⟩
  · have h1 : postCount (alertEvents
        { s with emergency_mode := true, waiting_for_response := false,
                 led_flashing := true } o) = 1 :=
      postCount_alertEvents_one _ o hwh
    simp only [postCount, List.countP_append, List.countP_cons, List.countP_nil] at h1 ⊢
    simp only [h1]
    simp
  · simp
  · simp [timeoutEmergency]
  · simp [activateEmergency]
  · have h1 : postCount (alertEvents
        { s with emergency_mode := true, waiting_for_response := false,
                 led_flashing := true } o4) = 1 :=
      postCount_alertEvents_one _ o4 hwh
    simpa [periodicCheck] using h1

/-- Witness for `timeout_escalates_once`: the freshly declared fall
times out with a successful first post. -/
theorem timeout_escalates_once_witness :
    postCount (timeoutEmergency (detectFall idleState).1 (SendOutcome.http 204)).2 = 1 :=
  (timeout_escalates_once (detectFall idleState).1 (SendOutcome.http 204)
    SendOutcome.exn SendOutcome.exn SendOutcome.exn (by decide) (by decide) (by decide)).2.1

/-- C7: while awaiting confirmation (the deadline timer has not fired, so
`waiting_for_response` is still true), any input whose lowercased,
stripped form contains "i'm okay" makes `handle_user_response` return
true, clears all escalation flags back to idle, and halts the LED
flashing. -/
theorem confirmation_resets_state (s : SafetyFeature) (t : String)
    (hw : s.waiting_for_response = true)
    (hm : containsSeq ("i'm okay".data) (normalizeText t) = true) :
    (handleUserResponse s t).2 = true ∧
    (handleUserResponse s t).1.1.fall_detected = false ∧
    (handleUserResponse s t).1.1.waiting_for_response = false ∧
    (handleUserResponse s t).1.1.emergency_mode = false ∧
    (handleUserResponse s t).1.1.led_flashing = false ∧
    Event.stopFlash ∈ (handleUserResponse s t).1.2 := by
  have hany : okayPhrases.any (fun p => containsSeq p.data (normalizeText t)) = true :=
    List.any_eq_true.mpr ⟨"i'm okay", by simp [okayPhrases], hm⟩
  simp [handleUserResponse, hw, hany, cancelEmergency]

/-- Witness for `confirmation_resets_state` right before the deadline. -/
theorem confirmation_resets_state_witness :
    (handleUserResponse (detectFall idleState).1 " I'm okay, thanks").2 = true :=
  (confirmation_resets_state (detectFall idleState).1 " I'm okay, thanks"
    (by decide) (by decide)).1

/-- C10: confirmation matching is bare substring containment — whenever
the lowercased, stripped user text contains any allow-list phrase
anywhere (in particular inside a negation such as "no, i'm not okay",
which contains "okay"), `handle_user_response` under
`waiting_for_response` returns true and cancels the episode back to
idle. -/
theorem substring_match_cancels (s : SafetyFeature) (t p : String)
    (hw : s.waiting_for_response = true)
    (hp : p ∈ okayPhrases)
    (hm : containsSeq p.data (normalizeText t) = true) :
    (handleUserResponse s t).2 = true ∧
    (handleUserResponse s t).1.1.fall_detected = false ∧
    (handleUserResponse s t).1.1.waiting_for_response = false ∧
    (handleUserResponse s t).1.1.emergency_mode = false := by
  have hany : okayPhrases.any (fun p => containsSeq p.data (normalizeText t)) = true :=
    List.any_eq_true.mpr ⟨p, hp, hm⟩
  simp [handleUserResponse, hw, hany, cancelEmergency]

/-- Witness for `substring_match_cancels` on a negated reply: "No, I'm
not okay" contains the allow-list phrase "okay" and still cancels. -/
theorem substring_match_cancels_witness :
    (handleUserResponse activeState "No, I'm not okay").2 = true :=
  (substring_match_cancels activeState "No, I'm not okay" "okay"
    (by decide) (by decide) (by decide)).1

/-- C1 counterexample: in the emergency state reached by a timed-out
fall, `waiting_for_response` is false, so the confirming input
"i'm okay" is ignored by `handle_user_response`: it returns false,
leaves the state unchanged (still in emergency), and the flash keeps
running — the claimed transition back to idle does not happen. -/
theorem emergency_confirm_input_ignored_cex :
    emergencyState.emergency_mode = true ∧
    emergencyState.led_flashing = true ∧
    (handleUserResponse emergencyState "i'm okay").2 = false ∧
    (handleUserResponse emergencyState "i'm okay").1.1 = emergencyState ∧
    (handleUserResponse emergencyState "i'm okay").1.2 = [] := by
  decide

/-- C1 amended: once in emergency (`waiting_for_response` cleared by
`_activate_emergency`), `handle_user_response` ignores every input; the
machine returns to idle only through the explicit cancel command
`cancel_fall_detection`, which clears all three escalation flags and
stops the emergency flash. -/
theorem emergency_exit_requires_explicit_cancel (s : SafetyFeature) (t : String)
    (hw : s.waiting_for_response = false) :
    (handleUserResponse s t).2 = false ∧
    (handleUserResponse s t).1.1 = s ∧
    (handleUserResponse s t).1.2 = [] ∧
    (cancelFallDetection s).1.fall_detected = false ∧
    (cancelFallDetection s).1.waiting_for_response = false ∧
    (cancelFallDetection s).1.emergency_mode = false ∧
    (cancelFallDetection s).1.led_flashing = false ∧
    Event.stopFlash ∈ (cancelFallDetection s).2 := by
  simp [handleUserResponse, hw, cancelFallDetection, cancelEmergency]

/-- Witness for `emergency_exit_requires_explicit_cancel` in the
concrete emergency state. -/
theorem emergency_exit_requires_explicit_cancel_witness :
    (handleUserResponse emergencyState "yes").2 = false :=
  (emergency_exit_requires_explicit_cancel emergencyState "yes" (by decide)).1

/-- Whether the `requests.post` outcome is a delivery failure:
any HTTP status other than 204, or a raised exception. -/
def isFailureOutcome (o : SendOutcome) : Bool :=
  match o with
  | SendOutcome.http st => decide (st ≠ 204)
  | SendOutcome.exn => true

/-- C9 counterexample: a failing delivery (HTTP 500) in the emergency
state is logged as `discord_alert_failed` — the event name
`emergency_notify_failed` claimed by the spec is never emitted. -/
theorem notify_failure_event_name_cex :
    alertEvents emergencyState (SendOutcome.http 500) =
      [Event.discordPost, Event.log "discord_alert_failed"] ∧
    Event.log "emergency_notify_failed" ∉ alertEvents emergencyState (SendOutcome.http 500) ∧
    Event.log "emergency_notify_failed" ∉ alertEvents emergencyState SendOutcome.exn := by
  decide

/-- C9 amended: every delivery failure (non-204 status or exception) is
logged as `discord_alert_failed` or `discord_alert_error` (not
`emergency_notify_failed`), leaves the escalation state untouched, and a
subsequent 60 s periodic check still posts — a failed notification does
not stop the retry loop. -/
theorem notify_failure_logged_nonfatal (s : SafetyFeature) (o o2 : SendOutcome)
    (hwh : s.webhook_configured = true) (hf : isFailureOutcome o = true)
    (he : s.emergency_mode = true) :
    (sendDiscordAlert s o).1 = s ∧
    (Event.log "discord_alert_failed" ∈ (sendDiscordAlert s o).2 ∨
      Event.log "discord_alert_error" ∈ (sendDiscordAlert s o).2) ∧
    Event.log "emergency_notify_failed" ∉ (sendDiscordAlert s o).2 ∧
    Event.discordPost ∈ periodicCheck (sendDiscordAlert s o).1 o2 := by
  refine ⟨rfl, ?_, ?_, ?_⟩
  · cases o with
    | http st =>
        have h204 : ¬ st = 204 := by simpa [isFailureOutcome] using hf
        exact Or.inl (by simp [sendDiscordAlert, alertEvents, hwh, h204])
    | exn => exact Or.inr (by simp [sendDiscordAlert, alertEvents, hwh])
  · cases o with
    | http st =>
        by_cases h204 : st = 204 <;>
          simp [sendDiscordAlert, alertEvents, hwh, h204]
    | exn => simp [sendDiscordAlert, alertEvents, hwh]
  · cases o2 <;> simp [sendDiscordAlert, periodicCheck, he, alertEvents, hwh]

/-- Witness for `notify_failure_logged_nonfatal`: an exception on the
first post, then a later periodic attempt. -/
theorem notify_failure_logged_nonfatal_witness :
    Event.discordPost ∈
      periodicCheck (sendDiscordAlert emergencyState SendOutcome.exn).1 (SendOutcome.http 503) :=
  (notify_failure_logged_nonfatal emergencyState SendOutcome.exn (SendOutcome.http 503)
    (by decide) (by decide) (by decide)).2.2.2

/-- C2: the spec's idle-stability example fails on the code — on the
oscillating jitter sequence 0.148, 0.649, 0.148, 0.649 the per-sample
delta is 0.501, which passes the unconditional `z_change > 0.5` accept on
every post-seed tick, so the third consecutive hit reaches
`detection_threshold` and `_detect_fall` is invoked on the fourth
sample. -/
theorem jitter_oscillation_declares_fall :
    Event.log "fall_detected" ∈
      (runMonitor idleState [148/1000, 649/1000, 148/1000, 649/1000]).2 ∧
    (runMonitor idleState [148/1000, 649/1000, 148/1000, 649/1000]).1.fall_detected = true := by
  decide

/-- `ratAbs` is the identity on nonnegative rationals. -/
theorem ratAbs_of_nonneg {q : ℚ} (h : 0 ≤ q) : ratAbs q = q := by
  simp [ratAbs, not_lt.mpr h]

/-- An in-band value is its own absolute value. -/
theorem ratAbs_of_band {b : ℚ} (h1 : zJitterLow ≤ b) : ratAbs b = b := by
  refine ratAbs_of_nonneg (le_trans ?_ h1)
  norm_num [zJitterLow]

/-- An in-band value is not counted as outside the jitter range. -/
theorem outsideP_band {b : ℚ} (h1 : zJitterLow ≤ b) (h2 : b ≤ zJitterHigh) :
    outsideP b = false := by
  simp only [outsideP, Bool.or_eq_false_iff, decide_eq_false_iff_not]
  exact ⟨not_lt.mpr h1, not_lt.mpr h2⟩

/-- The outside count of the updated window is at most that of the
appended history. -/
theorem outsideCount_window_le (hist : List ℚ) (a : ℚ) :
    outsideJitterCount (tickWindow hist a) ≤ outsideJitterCount (hist ++ [a]) := by
  unfold tickWindow outsideJitterCount
  split
  · exact List.Sublist.countP_le _ (List.tail_sublist _)
  · exact le_refl _

/-- Appending an in-band value does not change the outside count. -/
theorem outsideCount_append_band (hist : List ℚ) {b : ℚ} (hb : outsideP b = false) :
    outsideJitterCount (hist ++ [b]) = outsideJitterCount hist := by
  simp [outsideJitterCount, List.countP_append, List.countP_cons, hb]

/-- The delta between two in-band values never exceeds the hard ceiling. -/
theorem band_delta_le {p b : ℚ}
    (hp1 : zJitterLow ≤ p) (hp2 : p ≤ zJitterHigh)
    (hb1 : zJitterLow ≤ b) (hb2 : b ≤ zJitterHigh) :
    ratAbs (b - p) ≤ changeCeiling := by
  unfold zJitterLow at hp1 hb1
  unfold zJitterHigh at hp2 hb2
  unfold ratAbs changeCeiling
  split <;> linarith

/-- A tick whose previous and current samples both lie in the jitter
bands, taken on a history with at most one outside reading, is not a
detection hit. -/
theorem no_hit_in_band (hist : List ℚ) {p b : ℚ}
    (hp1 : zJitterLow ≤ p) (hp2 : p ≤ zJitterHigh)
    (hb1 : zJitterLow ≤ b) (hb2 : b ≤ zJitterHigh)
    (hcnt : outsideJitterCount hist ≤ 1) :
    tickHit hist p b = false := by
  have habs : ratAbs b = b := ratAbs_of_band hb1
  have hff : isFreeFall (ratAbs b) = false := by
    rw [habs]
    simp only [isFreeFall, decide_eq_false_iff_not, not_lt]
    unfold freeFallThreshold
    unfold zJitterLow at hb1
    linarith
  have him : isImpact (ratAbs b) = false := by
    rw [habs]
    simp only [isImpact, decide_eq_false_iff_not, not_lt]
    unfold impactThreshold
    unfold zJitterHigh at hb2
    linarith
  have hsc : isSuddenChange (tickWindow hist (ratAbs b)) (ratAbs b) (ratAbs (b - p)) = false := by
    unfold isSuddenChange
    by_cases h45 : zChangeThreshold < ratAbs (b - p)
    · rw [if_pos h45]
      have hceil : ¬ changeCeiling < ratAbs (b - p) :=
        not_lt.mpr (band_delta_le hp1 hp2 hb1 hb2)
      rw [if_neg hceil]
      have hwle : outsideJitterCount (tickWindow hist (ratAbs b)) ≤ 1 := by
        refine le_trans (outsideCount_window_le hist (ratAbs b)) ?_
        rw [habs, outsideCount_append_band hist (outsideP_band hb1 hb2)]
        exact hcnt
      have hpat : isPatternDetected (tickWindow hist (ratAbs b)) = false := by
        simp only [isPatternDetected, decide_eq_false_iff_not, not_le]
        omega
      rw [hpat]
      simp
    · rw [if_neg h45]
  simp [tickHit, hff, him, hsc]

/-- A post-seed tick whose incremented counter stays below the detection
threshold never declares a fall, whatever the sample: it emits no
events, preserves `fall_detected`, and its counter stays at most the
incremented value. -/
theorem tick_no_declare (s : SafetyFeature) (q b : ℚ) (hq : s.previous_z = some q)
    (hlt : s.detection_count + 1 < detectionThreshold) :
    (monitorTick s b).2 = [] ∧
    (monitorTick s b).1.fall_detected = s.fall_detected ∧
    (monitorTick s b).1.detection_count ≤ s.detection_count + 1 ∧
    (monitorTick s b).1.previous_z = some b ∧
    (monitorTick s b).1.z_history = tickWindow s.z_history (ratAbs b) := by
  have hnot : ¬ (detectionThreshold ≤ s.detection_count + 1 ∧ s.fall_detected = false) := by
    rintro ⟨h1, -⟩
    omega
  by_cases hh : tickHit s.z_history q b
  · simp [monitorTick, hq, hh, detectCheck, hnot]
  · simp [monitorTick, hq, hh]

/-- Invariant for runs of in-band samples: no open fall, at most one
outside reading in the window, and an in-band previous sample. -/
def InBandInv (t : SafetyFeature) : Prop :=
  t.fall_detected = false ∧ outsideJitterCount t.z_history ≤ 1 ∧
  ∃ q, t.previous_z = some q ∧ zJitterLow ≤ q ∧ q ≤ zJitterHigh

/-- One in-band tick from an invariant state emits nothing and preserves
the invariant. -/
theorem inband_tick (t : SafetyFeature) {b : ℚ} (hInv : InBandInv t)
    (hb1 : zJitterLow ≤ b) (hb2 : b ≤ zJitterHigh) :
    (monitorTick t b).2 = [] ∧ InBandInv (monitorTick t b).1 := by
  obtain ⟨hf, hcnt, q, hq, hq1, hq2⟩ := hInv
  have hhit : tickHit t.z_history q b = false := no_hit_in_band _ hq1 hq2 hb1 hb2 hcnt
  have habs : ratAbs b = b := ratAbs_of_band hb1
  refine ⟨by simp [monitorTick, hq, hhit], ⟨?_, ?_, b, ?_, hb1, hb2⟩⟩
  · simp [monitorTick, hq, hhit, hf]
  · simp only [monitorTick, hq, hhit, Bool.false_eq_true, if_neg]
    refine le_trans (outsideCount_window_le t.z_history (ratAbs b)) ?_
    rw [habs, outsideCount_append_band t.z_history (outsideP_band hb1 hb2)]
    exact hcnt
  · simp [monitorTick, hq, hhit]

/-- A run of in-band samples from an invariant state emits nothing and
never sets `fall_detected`. -/
theorem inband_run (bs : List ℚ) :
    ∀ t : SafetyFeature, InBandInv t →
      (∀ b ∈ bs, zJitterLow ≤ b ∧ b ≤ zJitterHigh) →
      (runMonitor t bs).2 = [] ∧ (runMonitor t bs).1.fall_detected = false := by
  induction bs with
  | nil =>
      intro t hInv _
      exact ⟨rfl, hInv.1⟩
  | cons b rest ih =>
      intro t hInv hball
      have hb := hball b (List.mem_cons_self b rest)
      have step := inband_tick t hInv hb.1 hb.2
      have hrest := ih (monitorTick t b).1 step.2
        (fun x hx => hball x (List.mem_cons_of_mem _ hx))
      refine ⟨?_, ?_⟩
      · show (monitorTick t b).2 ++ (runMonitor (monitorTick t b).1 rest).2 = []
        rw [step.1, hrest.1]
        rfl
      · show (runMonitor (monitorTick t b).1 rest).1.fall_detected = false
        exact hrest.2

/-- C6: starting from a clean monitoring state (no open episode, zero
consecutive-hit counter, in-band history and a seeded previous sample),
a single tick whose absolute value exceeds `impact_threshold` followed
only by samples back inside the idle jitter bands never reaches
`detection_threshold`: the run emits no events and declares no fall. -/
theorem sustained_detection_required (s : SafetyFeature) (v p : ℚ) (bs : List ℚ)
    (hfall : s.fall_detected = false)
    (hcnt0 : s.detection_count = 0)
    (hhist : ∀ x ∈ s.z_history, zJitterLow ≤ x ∧ x ≤ zJitterHigh)
    (hprev : s.previous_z = some p)
    (himp : impactThreshold < ratAbs v)
    (hbs : ∀ b ∈ bs, zJitterLow ≤ b ∧ b ≤ zJitterHigh) :
    (runMonitor s (v :: bs)).2 = [] ∧
    (runMonitor s (v :: bs)).1.fall_detected = false := by
  have hlt1 : s.detection_count + 1 < detectionThreshold := by
    rw [hcnt0]
    norm_num [detectionThreshold]
  have t1 := tick_no_declare s p v hprev hlt1
  have hcount0 : outsideJitterCount s.z_history = 0 := by
    refine List.countP_eq_zero.mpr ?_
    intro a ha
    simp [outsideP_band (hhist a ha).1 (hhist a ha).2]
  have hs1cnt : outsideJitterCount (monitorTick s v).1.z_history ≤ 1 := by
    rw [t1.2.2.2.2]
    refine le_trans (outsideCount_window_le _ _) ?_
    rw [outsideJitterCount, List.countP_append]
    have h2 : List.countP outsideP [ratAbs v] ≤ 1 :=
      le_trans (List.countP_le_length _) (by simp)
    have h1 : List.countP outsideP s.z_history = 0 := hcount0
    omega
  cases bs with
  | nil =>
      constructor
      · show (monitorTick s v).2 ++ (runMonitor (monitorTick s v).1 []).2 = []
        rw [t1.1]
        rfl
      · show (monitorTick s v).1.fall_detected = false
        rw [t1.2.1, hfall]
  | cons b1 rest =>
      have hb1 := hbs b1 (List.mem_cons_self b1 rest)
      have hlt2 : (monitorTick s v).1.detection_count + 1 < detectionThreshold := by
        have hle := t1.2.2.1
        rw [hcnt0] at hle
        unfold detectionThreshold
        omega
      have t2 := tick_no_declare (monitorTick s v).1 v b1 t1.2.2.2.1 hlt2
      have hInv2 : InBandInv (monitorTick (monitorTick s v).1 b1).1 := by
        refine ⟨?_, ?_, b1, t2.2.2.2.1, hb1.1, hb1.2⟩
        · rw [t2.2.1, t1.2.1, hfall]
        · rw [t2.2.2.2.2]
          refine le_trans (outsideCount_window_le _ _) ?_
          rw [ratAbs_of_band hb1.1,
            outsideCount_append_band _ (outsideP_band hb1.1 hb1.2)]
          exact hs1cnt
      have hrest := inband_run rest (monitorTick (monitorTick s v).1 b1).1 hInv2
        (fun x hx => hbs x (List.mem_cons_of_mem _ hx))
      constructor
      · show (monitorTick s v).2 ++
            ((monitorTick (monitorTick s v).1 b1).2 ++
              (runMonitor (monitorTick (monitorTick s v).1 b1).1 rest).2) = []
        rw [t1.1, t2.1, hrest.1]
        rfl
      · show (runMonitor (monitorTick (monitorTick s v).1 b1).1 rest).1.fall_detected = false
        exact hrest.2

/-- Witness for `sustained_detection_required`: a single 0.8 impact tick
followed by in-band samples. -/
theorem sustained_detection_required_witness :
    (runMonitor seededState [8/10, 2/10, 3/10, 2/10]).2 = [] :=
  (sustained_detection_required seededState (8/10) (2/10) [2/10, 3/10, 2/10]
    rfl rfl (by decide) rfl (by decide) (by decide)).1
